import Mathlib

/-!
Verification model of `src/nodes/AgentIdToken.node.ts`: a three-step OAuth2
token-exchange chain with a per-token expiring cache (`TokenCache`), shallowly
embedded in Lean.

Modelling conventions:
* A JavaScript `Map<string, CachedToken>` is an insertion-ordered association
  list with `mapGet` / `mapSet` / `mapDelete` mirroring `Map.get` / `Map.set` /
  `Map.delete`.
* `Date.now()` is an explicit `now : Int` argument (epoch milliseconds).
* A runtime JS string that may be `undefined` (the HTTP response is cast
  unchecked to the `TokenResponse` interface) is `Option String`; JS
  truthiness and the `||` operator are modelled explicitly.
* `this.helpers.httpRequest` is an oracle `Server : Form → Except HttpError
  TokenResponse`; n8n's helper throws on a non-2xx status, which the node does
  not catch, so a `.error` outcome propagates unchanged through the chain.
* A `Record<string, string>` object literal is a `Form`: a list of key/value
  pairs in insertion order with pairwise-distinct keys.
-/

/-- A JavaScript string value that may be `undefined` at runtime. -/
abbrev JsString := Option String

/-- JS template-literal rendering of a possibly-`undefined` string
    (`undefined` prints as `"undefined"`). -/
def jsStr : JsString → String
  | none => "undefined"
  | some s => s

/-- JS truthiness of a `string | null | undefined` value:
    `null`, `undefined` and `""` are falsy. -/
def jsTruthyStr : Option JsString → Bool
  | some (some s) => !(s == "")
  | _ => false

/-- JS `x || d` on an optional number: absent (`undefined`) or `0` falls back
    to `d` (models `response.expires_in || defaultExpiry`). -/
def jsOrInt : Option Int → Int → Int
  | none, d => d
  | some v, d => if v = 0 then d else v

/-- A form body / `Record<string, string>` object: key/value pairs in
    insertion order (keys pairwise distinct at every construction site). -/
abbrev Form := List (String × String)

/-- `Map.get`: first entry whose key matches. -/
def mapGet {α : Type} (m : List (String × α)) (k : String) : Option α :=
  (m.find? (fun p => p.1 == k)).map Prod.snd

/-- `Map.set`: overwrite in place if the key is present, else append. -/
def mapSet {α : Type} (m : List (String × α)) (k : String) (v : α) :
    List (String × α) :=
  if m.any (fun p => p.1 == k) then
    m.map (fun p => if p.1 == k then (k, v) else p)
  else
    m ++ [(k, v)]

/-- `Map.delete`: remove the entry with the given key. -/
def mapDelete {α : Type} (m : List (String × α)) (k : String) :
    List (String × α) :=
  m.filter (fun p => p.1 != k)

/-- `interface CachedToken { token: string; expiresAt: number }` —
    `token` is `Option String` because the value stored comes from the
    unchecked response cast and may be `undefined` at runtime. -/
structure CachedToken where
  token : JsString
  expiresAt : Int
deriving Repr, DecidableEq

/-- The `TokenCache`'s backing `Map`. -/
abbrev Cache := List (String × CachedToken)

/-- Lexicographic comparison of code-point sequences, as JS `Array.sort()`
    compares strings (code-unit order; identical on the ASCII keys used by
    the node). -/
def charListLe : List Char → List Char → Bool
  | [], _ => true
  | _ :: _, [] => false
  | a :: as, b :: bs =>
    if a.toNat < b.toNat then true
    else if b.toNat < a.toNat then false
    else charListLe as bs

/-- The string order used to sort parameter names. -/
def strle (a b : String) : Prop := charListLe a.data b.data = true

instance : DecidableRel strle := fun a b => by
  unfold strle
  infer_instance

namespace TokenCache

/-- `private readonly EXPIRY_BUFFER = 180` (seconds). -/
def EXPIRY_BUFFER : Int := 180

/-- JS `${key}=${params[key]}` lookup: first value under the key, rendering a
    missing key the way a template literal renders `undefined`. -/
def lookupValue (params : Form) (key : String) : String :=
  match (params.find? (fun p => p.1 == key)).map Prod.snd with
  | none => "undefined"
  | some v => v

/-- `generateKey(prefix, params)`: parameter names sorted lexicographically,
    each rendered `name=value`, joined by `&`, prefixed `prefix + ":"`.
    (`Array.sort()` on the distinct keys of a JS object is modelled by
    `insertionSort`; with distinct keys any correct sort yields the
    same list.)  The source's parameter `prefix` is named `pfx` here. -/
def generateKey (pfx : String) (params : Form) : String :=
  let sortedParams :=
    String.intercalate "&"
      (((params.map Prod.fst).insertionSort strle).map
        (fun key => key ++ "=" ++ lookupValue params key))
  pfx ++ ":" ++ sortedParams

/-- `TokenCache.get`: returns the cached token string (or `null`, the first
    component being `none`) and the possibly-updated backing map (an expired
    entry is deleted). -/
def get (c : Cache) (pfx : String) (params : Form) (now : Int) :
    Option JsString × Cache :=
  let key := generateKey pfx params
  match mapGet c key with
  | none => (none, c)
  | some cached =>
    if cached.expiresAt ≤ now then
      (none, mapDelete c key)
    else
      (some cached.token, c)

/-- `TokenCache.set`: store the token with
    `expiresAt = Date.now() + (expiresIn - EXPIRY_BUFFER) * 1000`. -/
def set (c : Cache) (pfx : String) (params : Form) (token : JsString)
    (expiresIn : Int) (now : Int) : Cache :=
  let key := generateKey pfx params
  let expiresAt := now + (expiresIn - EXPIRY_BUFFER) * 1000
  mapSet c key ⟨token, expiresAt⟩

end TokenCache

/-- `interface TokenResponse { access_token: string; expires_in?: number }` —
    the runtime body of a 2xx token-endpoint response.  `access_token` is
    `Option String` because the cast from the HTTP helper is unchecked: a 2xx
    body may lack the field (`undefined`). -/
structure TokenResponse where
  access_token : JsString
  expires_in : Option Int
deriving Repr, DecidableEq

/-- The failure thrown by `this.helpers.httpRequest` (n8n throws on a non-2xx
    status); carries the HTTP status when available and the response body or
    message.  The node does not catch it, so it propagates unchanged. -/
structure HttpError where
  status : Option Nat
  body : String
deriving Repr, DecidableEq

/-- The token endpoint as seen through `this.helpers.httpRequest`: each form
    POST either throws (non-2xx) or yields a parsed body. -/
abbrev Server := Form → Except HttpError TokenResponse

/-- `cacheStats` hit/miss counters (the timing fields are not modelled; the
    model treats a fetch as instantaneous). -/
structure Stats where
  hits : Nat
  misses : Nat
deriving Repr, DecidableEq

/-- Outcome of one `getOrFetchToken` call: the token returned (possibly
    `undefined`), the cache and stats afterwards, and the list of form bodies
    actually POSTed (empty on a cache hit). -/
inductive StepResult where
  | ok (token : JsString) (cache : Cache) (stats : Stats) (requests : List Form)
  | err (e : HttpError) (cache : Cache) (stats : Stats) (requests : List Form)
deriving Repr, DecidableEq

/-- `getOrFetchToken(cachePrefix, form, defaultExpiry = 3600)`: check the
    cache (JS truthiness — a falsy cached value is treated as a miss), else
    increment `misses`, POST the form, compute
    `expiresIn = response.expires_in || defaultExpiry`, cache the token and
    return it.  The source's `cachePrefix` parameter is named `pfx` here. -/
def getOrFetchToken (server : Server) (now : Int) (c : Cache) (st : Stats)
    (pfx : String) (form : Form) (defaultExpiry : Int := 3600) : StepResult :=
  let got := TokenCache.get c pfx form now
  if jsTruthyStr got.1 then
    .ok (got.1.getD none) got.2 ⟨st.hits + 1, st.misses⟩ []
  else
    match server form with
    | .error e => .err e got.2 ⟨st.hits, st.misses + 1⟩ [form]
    | .ok response =>
      let expiresIn := jsOrInt response.expires_in defaultExpiry
      let c2 := TokenCache.set got.2 pfx form response.access_token expiresIn now
      .ok response.access_token c2 ⟨st.hits, st.misses + 1⟩ [form]

/-- `const DEFAULT_SCOPE = 'api://AzureADTokenExchange/.default'`. -/
def DEFAULT_SCOPE : String := "api://AzureADTokenExchange/.default"

/-- The `agentIdOAuth2Api` credential fields consumed by `execute` (all
    required except `scope`, which may be unset). -/
structure Credentials where
  blueprintId : String
  blueprintSecret : String
  agentId : String
  agentUser : String
  scope : JsString
deriving Repr, DecidableEq

/-- `const userScope = (credentials.scope as string | undefined) || DEFAULT_SCOPE`. -/
def userScope (credentials : Credentials) : String :=
  match credentials.scope with
  | none => DEFAULT_SCOPE
  | some s => if s = "" then DEFAULT_SCOPE else s

/-- Step 1 form literal (`blueprintForm`). -/
def blueprintForm (credentials : Credentials) : Form :=
  [("grant_type", "client_credentials"),
   ("client_id", credentials.blueprintId),
   ("client_secret", credentials.blueprintSecret),
   ("scope", DEFAULT_SCOPE),
   ("fmi_path", credentials.agentId)]

/-- Step 2 form literal (`agentFicForm`); embeds step 1's token. -/
def agentFicForm (credentials : Credentials) (blueprintFic : JsString) : Form :=
  [("grant_type", "client_credentials"),
   ("client_id", credentials.agentId),
   ("scope", DEFAULT_SCOPE),
   ("client_assertion", jsStr blueprintFic),
   ("client_assertion_type", "urn:ietf:params:oauth:client-assertion-type:jwt-bearer")]

/-- Step 3 form literal (`userTokenForm`); embeds the tokens of steps 1 and 2. -/
def userTokenForm (credentials : Credentials) (blueprintFic agentidFic : JsString) :
    Form :=
  [("grant_type", "user_fic"),
   ("requested_token_use", "on_behalf_of"),
   ("client_id", credentials.agentId),
   ("client_assertion", jsStr blueprintFic),
   ("client_assertion_type", "urn:ietf:params:oauth:client-assertion-type:jwt-bearer"),
   ("username", credentials.agentUser),
   ("user_federated_identity_credential", jsStr agentidFic),
   ("scope", userScope credentials)]

/-- The record pushed to `returnData` on success (the `cache_info` counters;
    timing fields are not modelled). -/
structure ChainResult where
  access_token : JsString
  blueprint_token : JsString
  agent_token : JsString
  scope : String
  cache_hits : Nat
  cache_misses : Nat
deriving Repr, DecidableEq

/-- Outcome of one `execute` run over a single input item: either the output
    record, or the uncaught error of the failing step.  Both carry the global
    cache afterwards and the list of form bodies POSTed, in order. -/
inductive ChainOutcome where
  | ok (result : ChainResult) (cache : Cache) (requests : List Form)
  | err (e : HttpError) (cache : Cache) (requests : List Form) (stats : Stats)
deriving Repr, DecidableEq

/-- One `execute` run for a single input item: the three dependent
    `getOrFetchToken` steps in order, each feeding the next one's form;
    an error aborts the remaining steps. -/
def runChain (server : Server) (now : Int) (credentials : Credentials)
    (c : Cache) : ChainOutcome :=
  match getOrFetchToken server now c ⟨0, 0⟩ "blueprint" (blueprintForm credentials) 3600 with
  | .err e c1 st1 r1 => .err e c1 r1 st1
  | .ok blueprintFic c1 st1 r1 =>
    match getOrFetchToken server now c1 st1 "agentFic"
        (agentFicForm credentials blueprintFic) 3600 with
    | .err e c2 st2 r2 => .err e c2 (r1 ++ r2) st2
    | .ok agentidFic c2 st2 r2 =>
      match getOrFetchToken server now c2 st2 "userToken"
          (userTokenForm credentials blueprintFic agentidFic) 3600 with
      | .err e c3 st3 r3 => .err e c3 (r1 ++ r2 ++ r3) st3
      | .ok userToken c3 st3 r3 =>
        .ok ⟨userToken, blueprintFic, agentidFic, userScope credentials,
             st3.hits, st3.misses⟩ c3 (r1 ++ r2 ++ r3)

/-- The error of a failed run, if any. -/
def ChainOutcome.errorOf : ChainOutcome → Option HttpError
  | .err e _ _ _ => some e
  | .ok _ _ _ => none

/-- The forms POSTed during a run. -/
def ChainOutcome.requestsOf : ChainOutcome → List Form
  | .err _ _ r _ => r
  | .ok _ _ r => r

/-- The cache left behind by a run. -/
def ChainOutcome.cacheOf : ChainOutcome → Cache
  | .err _ c _ _ => c
  | .ok _ c _ => c

/-- Whether a step failed. -/
def StepResult.isErr : StepResult → Bool
  | .err _ _ _ _ => true
  | .ok _ _ _ _ => false

/-- The token a successful step returned. -/
def StepResult.tokenOf : StepResult → Option JsString
  | .ok t _ _ _ => some t
  | .err _ _ _ _ => none

/-- The cache a step left behind. -/
def StepResult.cacheOf : StepResult → Cache
  | .ok _ c _ _ => c
  | .err _ c _ _ => c

/-! ### Concrete fixtures used by witnesses and counterexamples -/

/-- Demo credentials (`scope` unset, so the default scope applies). -/
def demoCreds : Credentials := ⟨"B1", "S1", "A1", "U1", none⟩

/-- A small demo form. -/
def demoForm : Form := [("a", "1")]

/-- A server whose every 2xx response lacks `access_token`. -/
def srvNoToken : Server := fun _ => .ok ⟨none, some 3600⟩

/-- A server whose every 2xx response lacks `expires_in`. -/
def srvNoExpiry : Server := fun _ => .ok ⟨some "tok", none⟩

/-- A server whose every 2xx response carries `expires_in: 0`. -/
def srvZeroExpiry : Server := fun _ => .ok ⟨some "tok", some 0⟩

/-- A server that answers the blueprint step and rejects everything else
    with HTTP 401 and body "Unauthorized". -/
def srv401 : Server := fun f =>
  if f = blueprintForm demoCreds then .ok ⟨some "tok1", some 3600⟩
  else .error ⟨some 401, "Unauthorized"⟩

/-- A healthy server for the full three-step chain. -/
def srvOk : Server := fun f =>
  if f = blueprintForm demoCreds then .ok ⟨some "tok1", some 3600⟩
  else if f = agentFicForm demoCreds (some "tok1") then .ok ⟨some "tok2", some 3600⟩
  else if f = userTokenForm demoCreds (some "tok1") (some "tok2") then
    .ok ⟨some "tok3", some 1800⟩
  else .error ⟨none, "no route"⟩

/-! ### The sort order is total, transitive and antisymmetric -/

theorem charListLe_total : ∀ a b : List Char,
    charListLe a b = true ∨ charListLe b a = true := by
  intro a
  induction a with
  | nil => intro b; left; rfl
  | cons x xs ih =>
    intro b
    cases b with
    | nil => right; rfl
    | cons y ys =>
      by_cases h1 : x.toNat < y.toNat
      · left; simp [charListLe, h1]
      · by_cases h2 : y.toNat < x.toNat
        · right; simp [charListLe, h2]
        · rcases ih ys with h | h
          · left; simp [charListLe, h1, h2, h]
          · right; simp [charListLe, h1, h2, h]

theorem charListLe_trans : ∀ a b c : List Char,
    charListLe a b = true → charListLe b c = true → charListLe a c = true := by
  intro a
  induction a with
  | nil => intro b c _ _; rfl
  | cons x xs ih =>
    intro b c hab hbc
    cases b with
    | nil => simp [charListLe] at hab
    | cons y ys =>
      cases c with
      | nil => simp [charListLe] at hbc
      | cons z zs =>
        simp only [charListLe] at hab hbc ⊢
        split_ifs at hab hbc ⊢ with h1 h2 h3 h4 h5 h6 <;>
          first
          | rfl
          | omega
          | (exact ih ys zs hab hbc)

theorem char_toNat_inj {a b : Char} (h : a.toNat = b.toNat) : a = b := by
  have := congrArg Char.ofNat h
  simpa using this

theorem charListLe_antisymm : ∀ a b : List Char,
    charListLe a b = true → charListLe b a = true → a = b := by
  intro a
  induction a with
  | nil =>
    intro b _ hba
    cases b with
    | nil => rfl
    | cons y ys => simp [charListLe] at hba
  | cons x xs ih =>
    intro b hab hba
    cases b with
    | nil => simp [charListLe] at hab
    | cons y ys =>
      simp only [charListLe] at hab hba
      by_cases h1 : x.toNat < y.toNat
      · by_cases h2 : y.toNat < x.toNat
        · omega
        · simp [h1, h2] at hba
      · by_cases h2 : y.toNat < x.toNat
        · simp [h1, h2] at hab
        · simp [h1, h2] at hab hba
          have hxy : x = y := char_toNat_inj (by omega)
          subst hxy
          exact congrArg (x :: ·) (ih ys hab hba)

instance : IsTotal String strle :=
  ⟨fun a b => charListLe_total a.data b.data⟩

instance : IsTrans String strle :=
  ⟨fun a b c => charListLe_trans a.data b.data c.data⟩

instance : IsAntisymm String strle :=
  ⟨fun a b h1 h2 => by
    have h := charListLe_antisymm a.data b.data h1 h2
    exact String.toList_inj.mp h⟩

/-! ### Key lookup respects permutation of a distinct-key parameter list -/

theorem find?_key_eq_of_perm {α : Type} {l1 l2 : List (String × α)}
    (h : l1.Perm l2) (hnodup : (l1.map Prod.fst).Nodup) (k : String) :
    l1.find? (fun p => p.1 == k) = l2.find? (fun p => p.1 == k) := by
  revert hnodup
  induction h with
  | nil => intro _; rfl
  | cons x h ih =>
    intro hnodup
    simp only [List.map_cons, List.nodup_cons] at hnodup
    cases hx : (x.1 == k) with
    | true => simp [List.find?_cons, hx]
    | false => simp only [List.find?_cons, hx]; exact ih hnodup.2
  | swap x y l =>
    intro hnodup
    simp only [List.map_cons, List.nodup_cons, List.mem_cons] at hnodup
    cases hx : (x.1 == k) with
    | true =>
      cases hy : (y.1 == k) with
      | true =>
        exfalso
        have hx' : x.1 = k := by simpa using hx
        have hy' : y.1 = k := by simpa using hy
        exact hnodup.1 (Or.inl (hy'.trans hx'.symm))
      | false => simp [List.find?_cons, hx, hy]
    | false =>
      cases hy : (y.1 == k) with
      | true => simp [List.find?_cons, hx, hy]
      | false => simp [List.find?_cons, hx, hy]
  | trans h1 h2 ih1 ih2 =>
    intro hnodup
    have hnodup2 := ((h1.map Prod.fst).nodup_iff).mp hnodup
    exact (ih1 hnodup).trans (ih2 hnodup2)

/-- Two parameter lists with the same name/value pairs (in any insertion
    order, names distinct) produce the same cache key. -/
theorem generateKey_perm (pfx : String) {l1 l2 : Form}
    (h : l1.Perm l2) (hnodup : (l1.map Prod.fst).Nodup) :
    TokenCache.generateKey pfx l1 = TokenCache.generateKey pfx l2 := by
  have hkeys : (l1.map Prod.fst).Perm (l2.map Prod.fst) := h.map Prod.fst
  have hsorted :
      (l1.map Prod.fst).insertionSort strle = (l2.map Prod.fst).insertionSort strle :=
    List.eq_of_perm_of_sorted
      (((List.perm_insertionSort strle _).trans hkeys).trans
        (List.perm_insertionSort strle _).symm)
      (List.sorted_insertionSort strle _)
      (List.sorted_insertionSort strle _)
  have hlook : ∀ key, TokenCache.lookupValue l1 key = TokenCache.lookupValue l2 key := by
    intro key
    simp only [TokenCache.lookupValue]
    rw [find?_key_eq_of_perm h hnodup key]
  simp only [TokenCache.generateKey]
  rw [hsorted]
  simp only [hlook]

/-! ### Map lemmas -/

theorem mapGet_cons {α : Type} (p : String × α) (t : List (String × α)) (k : String) :
    mapGet (p :: t) k = if p.1 == k then some p.2 else mapGet t k := by
  simp only [mapGet, List.find?_cons]
  cases hp : (p.1 == k) <;> simp [hp]

theorem mapGet_append {α : Type} (m1 m2 : List (String × α)) (k : String) :
    mapGet (m1 ++ m2) k = (mapGet m1 k).or (mapGet m2 k) := by
  simp only [mapGet, List.find?_append]
  cases List.find? (fun p => p.1 == k) m1 <;> simp

theorem mapGet_eq_none_of_any_false {α : Type} (m : List (String × α)) (k : String)
    (hany : m.any (fun p => p.1 == k) = false) :
    mapGet m k = none := by
  unfold mapGet
  have hnone : m.find? (fun p => p.1 == k) = none := by
    rw [List.find?_eq_none]
    intro x hx
    have := List.any_eq_false.mp hany x hx
    simpa using this
  rw [hnone]
  rfl

theorem mapGet_replaceIn {α : Type} (m : List (String × α)) (k : String) (v : α)
    (hany : m.any (fun p => p.1 == k) = true) :
    mapGet (m.map (fun p => if p.1 == k then (k, v) else p)) k = some v := by
  induction m with
  | nil => simp at hany
  | cons p t ih =>
    rw [List.map_cons]
    cases hp : (p.1 == k) with
    | true =>
      rw [if_pos rfl, mapGet_cons]
      rw [if_pos (show ((k, v).1 == k) = true from beq_self_eq_true k)]
    | false =>
      simp only [List.any_cons, hp, Bool.false_or] at hany
      rw [if_neg Bool.false_ne_true, mapGet_cons, if_neg (by simp [hp])]
      exact ih hany

theorem mapGet_replaceIn_ne {α : Type} (m : List (String × α)) (k k' : String)
    (v : α) (hne : k' ≠ k) :
    mapGet (m.map (fun p => if p.1 == k then (k, v) else p)) k' = mapGet m k' := by
  induction m with
  | nil => rfl
  | cons p t ih =>
    rw [List.map_cons]
    cases hp : (p.1 == k) with
    | true =>
      have hp' : p.1 = k := by simpa using hp
      have h1 : ¬ (((k, v).1 == k') = true) := by
        simp only [beq_iff_eq]
        exact Ne.symm hne
      have h2 : ¬ ((p.1 == k') = true) := by
        simp only [beq_iff_eq, hp']
        exact Ne.symm hne
      rw [if_pos rfl, mapGet_cons, mapGet_cons, if_neg h1, if_neg h2]
      exact ih
    | false =>
      rw [if_neg Bool.false_ne_true, mapGet_cons, mapGet_cons]
      cases hq : (p.1 == k') with
      | true => rw [if_pos rfl, if_pos rfl]
      | false =>
        rw [if_neg Bool.false_ne_true, if_neg Bool.false_ne_true]
        exact ih

theorem mapGet_mapSet_self {α : Type} (m : List (String × α)) (k : String) (v : α) :
    mapGet (mapSet m k v) k = some v := by
  unfold mapSet
  cases hany : m.any (fun p => p.1 == k) with
  | true =>
    rw [if_pos rfl]
    exact mapGet_replaceIn m k v hany
  | false =>
    rw [if_neg Bool.false_ne_true, mapGet_append, mapGet_eq_none_of_any_false m k hany,
      mapGet_cons, if_pos (show ((k, v).1 == k) = true from beq_self_eq_true k)]
    rfl

theorem mapGet_mapSet_ne {α : Type} (m : List (String × α)) (k k' : String)
    (v : α) (hne : k' ≠ k) :
    mapGet (mapSet m k v) k' = mapGet m k' := by
  unfold mapSet
  cases hany : m.any (fun p => p.1 == k) with
  | true =>
    rw [if_pos rfl]
    exact mapGet_replaceIn_ne m k k' v hne
  | false =>
    have h1 : ¬ (((k, v).1 == k') = true) := by
      simp only [beq_iff_eq]
      exact Ne.symm hne
    rw [if_neg Bool.false_ne_true, mapGet_append, mapGet_cons, if_neg h1]
    cases mapGet m k' <;> rfl

theorem mapGet_mapDelete_self {α : Type} (m : List (String × α)) (k : String) :
    mapGet (mapDelete m k) k = none := by
  unfold mapDelete mapGet
  have hnone : (m.filter (fun p => p.1 != k)).find? (fun p => p.1 == k) = none := by
    rw [List.find?_eq_none]
    intro x hx
    have := (List.mem_filter.mp hx).2
    simpa [bne] using this
  rw [hnone]
  rfl

theorem mapGet_mapDelete_ne {α : Type} (m : List (String × α)) (k k' : String)
    (hne : k' ≠ k) :
    mapGet (mapDelete m k) k' = mapGet m k' := by
  induction m with
  | nil => rfl
  | cons p t ih =>
    unfold mapDelete at ih ⊢
    rw [List.filter_cons]
    cases hp : (p.1 != k) with
    | true =>
      rw [if_pos rfl, mapGet_cons, mapGet_cons]
      cases hq : (p.1 == k') with
      | true => rw [if_pos rfl, if_pos rfl]
      | false =>
        rw [if_neg Bool.false_ne_true, if_neg Bool.false_ne_true]
        exact ih
    | false =>
      have hp' : p.1 = k := by simpa [bne] using hp
      have h2 : ¬ ((p.1 == k') = true) := by
        simp only [beq_iff_eq, hp']
        exact Ne.symm hne
      rw [if_neg Bool.false_ne_true, mapGet_cons, if_neg h2]
      exact ih

/-! ### Behaviour of `TokenCache.get` / `TokenCache.set` -/

theorem TokenCache.get_of_none (c : Cache) (pfx : String) (params : Form) (now : Int)
    (h : mapGet c (TokenCache.generateKey pfx params) = none) :
    TokenCache.get c pfx params now = (none, c) := by
  simp only [TokenCache.get]
  rw [h]

theorem TokenCache.get_of_expired (c : Cache) (pfx : String) (params : Form)
    (now : Int) (e : CachedToken)
    (h : mapGet c (TokenCache.generateKey pfx params) = some e)
    (he : e.expiresAt ≤ now) :
    TokenCache.get c pfx params now =
      (none, mapDelete c (TokenCache.generateKey pfx params)) := by
  simp only [TokenCache.get]
  rw [h]
  simp only [if_pos he]

theorem TokenCache.get_of_fresh (c : Cache) (pfx : String) (params : Form)
    (now : Int) (e : CachedToken)
    (h : mapGet c (TokenCache.generateKey pfx params) = some e)
    (he : now < e.expiresAt) :
    TokenCache.get c pfx params now = (some e.token, c) := by
  simp only [TokenCache.get]
  rw [h]
  simp only [if_neg (not_le.mpr he)]

theorem TokenCache.set_eq_mapSet (c : Cache) (pfx : String) (params : Form)
    (t : JsString) (expiresIn now : Int) :
    TokenCache.set c pfx params t expiresIn now =
      mapSet c (TokenCache.generateKey pfx params)
        ⟨t, now + (expiresIn - 180) * 1000⟩ := rfl

/-! ## Claims -/

/-- C3: cache-key generation is order-independent — for every kind and any two
    parameter mappings holding the same name/value pairs (names distinct, as in
    any JS object) in any insertion order, `generateKey` computes the same key,
    and `TokenCache.get` / `TokenCache.set` therefore address the same cache
    slot. -/
theorem cacheKey_order_independent (pfx : String) (l1 l2 : Form) (c : Cache)
    (t : JsString) (expiresIn now : Int)
    (hperm : l1.Perm l2) (hnodup : (l1.map Prod.fst).Nodup) :
    TokenCache.generateKey pfx l1 = TokenCache.generateKey pfx l2 ∧
    TokenCache.get c pfx l1 now = TokenCache.get c pfx l2 now ∧
    TokenCache.set c pfx l1 t expiresIn now =
      TokenCache.set c pfx l2 t expiresIn now := by
  have hk := generateKey_perm pfx hperm hnodup
  refine ⟨hk, ?_, ?_⟩
  · simp only [TokenCache.get, hk]
  · simp only [TokenCache.set, hk]

/-- Witness for C3 at a concrete permuted pair of parameter lists. -/
theorem cacheKey_order_independent_witness :
    ([("a", "1"), ("b", "2")] : Form).Perm [("b", "2"), ("a", "1")] ∧
    (([("a", "1"), ("b", "2")] : Form).map Prod.fst).Nodup ∧
    TokenCache.generateKey "blueprint" [("a", "1"), ("b", "2")] =
      TokenCache.generateKey "blueprint" [("b", "2"), ("a", "1")] ∧
    TokenCache.get [] "blueprint" [("a", "1"), ("b", "2")] 0 =
      TokenCache.get [] "blueprint" [("b", "2"), ("a", "1")] 0 :=
  ⟨by decide, by decide,
    (cacheKey_order_independent "blueprint" [("a", "1"), ("b", "2")]
      [("b", "2"), ("a", "1")] [] none 3600 0 (by decide) (by decide)).1,
    (cacheKey_order_independent "blueprint" [("a", "1"), ("b", "2")]
      [("b", "2"), ("a", "1")] [] none 3600 0 (by decide) (by decide)).2.1⟩

/-- C4: `set` stores the entry with
    `expiresAt = now + (expiresIn - 180) * 1000` (180 being the fixed
    `EXPIRY_BUFFER`), so whenever `expiresIn ≤ 180` the stored entry is
    already expired at write time and the next `get` (at any `now2 ≥ now`)
    evicts it and returns absent. -/
theorem set_applies_expiry_buffer (c : Cache) (pfx : String) (params : Form)
    (t : JsString) (expiresIn now now2 : Int)
    (hexp : expiresIn ≤ 180) (hle : now ≤ now2) :
    TokenCache.EXPIRY_BUFFER = 180 ∧
    mapGet (TokenCache.set c pfx params t expiresIn now)
        (TokenCache.generateKey pfx params) =
      some ⟨t, now + (expiresIn - 180) * 1000⟩ ∧
    now + (expiresIn - 180) * 1000 ≤ now ∧
    TokenCache.get (TokenCache.set c pfx params t expiresIn now) pfx params now2 =
      (none,
        mapDelete (TokenCache.set c pfx params t expiresIn now)
          (TokenCache.generateKey pfx params)) ∧
    mapGet
        (mapDelete (TokenCache.set c pfx params t expiresIn now)
          (TokenCache.generateKey pfx params))
        (TokenCache.generateKey pfx params) = none := by
  have hstore : mapGet (TokenCache.set c pfx params t expiresIn now)
      (TokenCache.generateKey pfx params) =
        some ⟨t, now + (expiresIn - 180) * 1000⟩ := by
    rw [TokenCache.set_eq_mapSet]
    exact mapGet_mapSet_self c (TokenCache.generateKey pfx params) _
  have hpast : now + (expiresIn - 180) * 1000 ≤ now := by omega
  refine ⟨rfl, hstore, hpast, ?_, ?_⟩
  · exact TokenCache.get_of_expired _ pfx params now2
      ⟨t, now + (expiresIn - 180) * 1000⟩ hstore
      (by show now + (expiresIn - 180) * 1000 ≤ now2; omega)
  · exact mapGet_mapDelete_self _ _

/-- Witness for C4 with `expiresIn = 100 ≤ 180`. -/
theorem set_applies_expiry_buffer_witness :
    (100 : Int) ≤ 180 ∧ (0 : Int) ≤ 0 ∧
    TokenCache.get (TokenCache.set [] "blueprint" [("a", "1")] (some "tok") 100 0)
        "blueprint" [("a", "1")] 0 =
      (none,
        mapDelete (TokenCache.set [] "blueprint" [("a", "1")] (some "tok") 100 0)
          (TokenCache.generateKey "blueprint" [("a", "1")])) :=
  ⟨by decide, by decide,
    (set_applies_expiry_buffer [] "blueprint" [("a", "1")] (some "tok") 100 0 0
      (by decide) (by decide)).2.2.2.1⟩

/-- C5: if the entry under a key is expired (`now ≥ expiresAt`), `get` evicts
    it and returns absent, and every later `get` on the same key (at any time)
    still returns absent and leaves the cache unchanged, until a new `set`. -/
theorem get_expired_evicts_permanently (c : Cache) (pfx : String) (params : Form)
    (e : CachedToken) (now now2 : Int)
    (hfound : mapGet c (TokenCache.generateKey pfx params) = some e)
    (hexpired : e.expiresAt ≤ now) :
    TokenCache.get c pfx params now =
      (none, mapDelete c (TokenCache.generateKey pfx params)) ∧
    mapGet (mapDelete c (TokenCache.generateKey pfx params))
        (TokenCache.generateKey pfx params) = none ∧
    TokenCache.get (mapDelete c (TokenCache.generateKey pfx params)) pfx params now2 =
      (none, mapDelete c (TokenCache.generateKey pfx params)) := by
  refine ⟨TokenCache.get_of_expired c pfx params now e hfound hexpired, ?_, ?_⟩
  · exact mapGet_mapDelete_self _ _
  · exact TokenCache.get_of_none _ pfx params now2 (mapGet_mapDelete_self _ _)

/-- Witness for C5 on a single-entry cache whose entry expired at time 5. -/
theorem get_expired_evicts_permanently_witness :
    mapGet [(TokenCache.generateKey "blueprint" [("a", "1")],
        (⟨some "tok", 5⟩ : CachedToken))]
      (TokenCache.generateKey "blueprint" [("a", "1")]) =
      some (⟨some "tok", 5⟩ : CachedToken) ∧
    (5 : Int) ≤ 7 ∧
    TokenCache.get [(TokenCache.generateKey "blueprint" [("a", "1")],
        (⟨some "tok", 5⟩ : CachedToken))] "blueprint" [("a", "1")] 7 =
      (none,
        mapDelete [(TokenCache.generateKey "blueprint" [("a", "1")],
          (⟨some "tok", 5⟩ : CachedToken))]
          (TokenCache.generateKey "blueprint" [("a", "1")])) :=
  ⟨by decide, by decide,
    (get_expired_evicts_permanently
      [(TokenCache.generateKey "blueprint" [("a", "1")], ⟨some "tok", 5⟩)]
      "blueprint" [("a", "1")] ⟨some "tok", 5⟩ 7 7 (by decide) (by decide)).1⟩

/-- C6: a `get` immediately after `set` with `expiresIn > 180` returns exactly
    the token that was set (and leaves the cache unchanged). -/
theorem get_after_fresh_set_returns_token (c : Cache) (pfx : String)
    (params : Form) (t : JsString) (expiresIn now : Int)
    (hfresh : 180 < expiresIn) :
    TokenCache.get (TokenCache.set c pfx params t expiresIn now) pfx params now =
      (some t, TokenCache.set c pfx params t expiresIn now) := by
  have hstore : mapGet (TokenCache.set c pfx params t expiresIn now)
      (TokenCache.generateKey pfx params) =
        some ⟨t, now + (expiresIn - 180) * 1000⟩ := by
    rw [TokenCache.set_eq_mapSet]
    exact mapGet_mapSet_self c (TokenCache.generateKey pfx params) _
  exact TokenCache.get_of_fresh _ pfx params now
    ⟨t, now + (expiresIn - 180) * 1000⟩ hstore
    (by show now < now + (expiresIn - 180) * 1000; omega)

/-- Witness for C6 with `expiresIn = 3600 > 180`. -/
theorem get_after_fresh_set_returns_token_witness :
    (180 : Int) < 3600 ∧
    TokenCache.get (TokenCache.set [] "userToken" [("a", "1")] (some "tok") 3600 0)
        "userToken" [("a", "1")] 0 =
      (some (some "tok"),
        TokenCache.set [] "userToken" [("a", "1")] (some "tok") 3600 0) :=
  ⟨by decide,
    get_after_fresh_set_returns_token [] "userToken" [("a", "1")] (some "tok")
      3600 0 (by decide)⟩

/-- C10: per-key frame — `set` changes only the entry at its own derived key,
    and `get` changes nothing except possibly deleting that same single
    entry; every other key (any other kind or parameter set) is untouched. -/
theorem cache_ops_frame (c : Cache) (pfx pfx2 : String) (params params2 : Form)
    (t : JsString) (expiresIn now : Int)
    (hne : TokenCache.generateKey pfx2 params2 ≠ TokenCache.generateKey pfx params) :
    mapGet (TokenCache.set c pfx params t expiresIn now)
        (TokenCache.generateKey pfx2 params2) =
      mapGet c (TokenCache.generateKey pfx2 params2) ∧
    mapGet (TokenCache.get c pfx params now).2
        (TokenCache.generateKey pfx2 params2) =
      mapGet c (TokenCache.generateKey pfx2 params2) ∧
    ((TokenCache.get c pfx params now).2 = c ∨
      (TokenCache.get c pfx params now).2 =
        mapDelete c (TokenCache.generateKey pfx params)) := by
  refine ⟨?_, ?_, ?_⟩
  · rw [TokenCache.set_eq_mapSet]
    exact mapGet_mapSet_ne c _ _ _ hne
  · cases hml : mapGet c (TokenCache.generateKey pfx params) with
    | none => rw [TokenCache.get_of_none c pfx params now hml]
    | some e =>
      by_cases hex : e.expiresAt ≤ now
      · rw [TokenCache.get_of_expired c pfx params now e hml hex]
        exact mapGet_mapDelete_ne c _ _ hne
      · rw [TokenCache.get_of_fresh c pfx params now e hml (not_le.mp hex)]
  · cases hml : mapGet c (TokenCache.generateKey pfx params) with
    | none =>
      rw [TokenCache.get_of_none c pfx params now hml]
      exact Or.inl rfl
    | some e =>
      by_cases hex : e.expiresAt ≤ now
      · rw [TokenCache.get_of_expired c pfx params now e hml hex]
        exact Or.inr rfl
      · rw [TokenCache.get_of_fresh c pfx params now e hml (not_le.mp hex)]
        exact Or.inl rfl

/-- Witness for C10: a `set` under kind `agentFic` leaves a `blueprint` entry
    alone. -/
theorem cache_ops_frame_witness :
    TokenCache.generateKey "blueprint" [("a", "1")] ≠
      TokenCache.generateKey "agentFic" [("b", "2")] ∧
    mapGet
        (TokenCache.set [(TokenCache.generateKey "blueprint" [("a", "1")],
            (⟨some "tok", 99⟩ : CachedToken))]
          "agentFic" [("b", "2")] (some "t2") 3600 0)
        (TokenCache.generateKey "blueprint" [("a", "1")]) =
      mapGet [(TokenCache.generateKey "blueprint" [("a", "1")],
          (⟨some "tok", 99⟩ : CachedToken))]
        (TokenCache.generateKey "blueprint" [("a", "1")]) :=
  ⟨by decide,
    (cache_ops_frame
      [(TokenCache.generateKey "blueprint" [("a", "1")], ⟨some "tok", 99⟩)]
      "agentFic" "blueprint" [("b", "2")] [("a", "1")] (some "t2") 3600 0
      (by decide)).1⟩

/-! ### Behaviour of one chain step (`getOrFetchToken`) -/

theorem getOrFetchToken_hit (server : Server) (now : Int) (c : Cache) (st : Stats)
    (pfx : String) (form : Form) (d : Int)
    (h : jsTruthyStr (TokenCache.get c pfx form now).1 = true) :
    getOrFetchToken server now c st pfx form d =
      .ok ((TokenCache.get c pfx form now).1.getD none)
        (TokenCache.get c pfx form now).2 ⟨st.hits + 1, st.misses⟩ [] := by
  simp only [getOrFetchToken]
  rw [if_pos h]

theorem getOrFetchToken_miss_err (server : Server) (now : Int) (c : Cache)
    (st : Stats) (pfx : String) (form : Form) (d : Int) (e : HttpError)
    (h : jsTruthyStr (TokenCache.get c pfx form now).1 = false)
    (hsrv : server form = .error e) :
    getOrFetchToken server now c st pfx form d =
      .err e (TokenCache.get c pfx form now).2 ⟨st.hits, st.misses + 1⟩ [form] := by
  simp only [getOrFetchToken]
  rw [if_neg (by simp [h]), hsrv]

theorem getOrFetchToken_miss_ok (server : Server) (now : Int) (c : Cache)
    (st : Stats) (pfx : String) (form : Form) (d : Int) (r : TokenResponse)
    (h : jsTruthyStr (TokenCache.get c pfx form now).1 = false)
    (hsrv : server form = .ok r) :
    getOrFetchToken server now c st pfx form d =
      .ok r.access_token
        (TokenCache.set (TokenCache.get c pfx form now).2 pfx form
          r.access_token (jsOrInt r.expires_in d) now)
        ⟨st.hits, st.misses + 1⟩ [form] := by
  simp only [getOrFetchToken]
  rw [if_neg (by simp [h]), hsrv]

/-- C1 counterexample: a 2xx response missing `access_token` is NOT an error —
    at this concrete input the step succeeds (`isErr = false`), returns the
    absent (`undefined`) token, and even caches it, contradicting the claim
    that such a response fails with a `TokenExchangeError` and that the token
    is never cached or returned. -/
theorem missing_access_token_not_an_error_cex :
    StepResult.isErr
        (getOrFetchToken srvNoToken 0 [] ⟨0, 0⟩ "blueprint" demoForm 3600) =
      false ∧
    StepResult.tokenOf
        (getOrFetchToken srvNoToken 0 [] ⟨0, 0⟩ "blueprint" demoForm 3600) =
      some none ∧
    mapGet
        (StepResult.cacheOf
          (getOrFetchToken srvNoToken 0 [] ⟨0, 0⟩ "blueprint" demoForm 3600))
        (TokenCache.generateKey "blueprint" demoForm) =
      some ⟨none, 3420000⟩ := by
  decide

/-- C1 (amended): on a cache miss, a failing HTTP exchange (non-2xx, which the
    HTTP helper surfaces as a thrown error) makes the step fail with exactly
    the HTTP layer's error — its status and body unchanged, with no step name
    or `TokenExchangeError` wrapper added by the node; a 2xx exchange never
    fails, even when `access_token` is absent: the (possibly absent) token is
    cached and returned. -/
theorem fetch_step_error_passthrough (server : Server) (now : Int) (c : Cache)
    (st : Stats) (pfx : String) (form : Form) (d : Int)
    (hmiss : jsTruthyStr (TokenCache.get c pfx form now).1 = false) :
    (∀ e, server form = .error e →
      getOrFetchToken server now c st pfx form d =
        .err e (TokenCache.get c pfx form now).2 ⟨st.hits, st.misses + 1⟩ [form]) ∧
    (∀ r, server form = .ok r →
      getOrFetchToken server now c st pfx form d =
        .ok r.access_token
          (TokenCache.set (TokenCache.get c pfx form now).2 pfx form
            r.access_token (jsOrInt r.expires_in d) now)
          ⟨st.hits, st.misses + 1⟩ [form]) :=
  ⟨fun e hsrv => getOrFetchToken_miss_err server now c st pfx form d e hmiss hsrv,
   fun r hsrv => getOrFetchToken_miss_ok server now c st pfx form d r hmiss hsrv⟩

/-- Witness for the amended C1: a 401 error propagates unchanged, and a 2xx
    body without `access_token` yields a successful step. -/
theorem fetch_step_error_passthrough_witness :
    jsTruthyStr (TokenCache.get [] "userToken" demoForm 0).1 = false ∧
    srv401 demoForm = .error ⟨some 401, "Unauthorized"⟩ ∧
    getOrFetchToken srv401 0 [] ⟨0, 0⟩ "userToken" demoForm 3600 =
      .err ⟨some 401, "Unauthorized"⟩ (TokenCache.get [] "userToken" demoForm 0).2
        ⟨0, 1⟩ [demoForm] ∧
    getOrFetchToken srvNoToken 0 [] ⟨0, 0⟩ "userToken" demoForm 3600 =
      .ok none
        (TokenCache.set (TokenCache.get [] "userToken" demoForm 0).2 "userToken"
          demoForm none 3600 0)
        ⟨0, 1⟩ [demoForm] :=
  ⟨by decide, rfl,
   (fetch_step_error_passthrough srv401 0 [] ⟨0, 0⟩ "userToken" demoForm 3600
      (by decide)).1 ⟨some 401, "Unauthorized"⟩ rfl,
   (fetch_step_error_passthrough srvNoToken 0 [] ⟨0, 0⟩ "userToken" demoForm 3600
      (by decide)).2 ⟨none, some 3600⟩ rfl⟩

/-- C8: a step whose 2xx response omits `expires_in` caches the fetched token
    with the default 3600-second lifetime: the stored expiry is
    `now + 3420 * 1000` ms (3600 minus the 180-second buffer), so a later
    `get` is a hit strictly before that instant and a miss from then on. -/
theorem absent_expires_in_defaults_3600 (server : Server) (now now2 : Int)
    (c : Cache) (st : Stats) (pfx : String) (form : Form) (r : TokenResponse)
    (hmiss : jsTruthyStr (TokenCache.get c pfx form now).1 = false)
    (hsrv : server form = .ok r) (habsent : r.expires_in = none) :
    ∃ c2,
      getOrFetchToken server now c st pfx form 3600 =
        .ok r.access_token c2 ⟨st.hits, st.misses + 1⟩ [form] ∧
      mapGet c2 (TokenCache.generateKey pfx form) =
        some ⟨r.access_token, now + 3420 * 1000⟩ ∧
      (TokenCache.get c2 pfx form now2).1 =
        (if now2 < now + 3420 * 1000 then some r.access_token else none) := by
  have hjs : jsOrInt r.expires_in 3600 = 3600 := by rw [habsent]; rfl
  have hstore : mapGet
      (TokenCache.set (TokenCache.get c pfx form now).2 pfx form
        r.access_token 3600 now)
      (TokenCache.generateKey pfx form) =
        some ⟨r.access_token, now + 3420 * 1000⟩ := by
    rw [TokenCache.set_eq_mapSet, mapGet_mapSet_self]
    norm_num
  refine ⟨TokenCache.set (TokenCache.get c pfx form now).2 pfx form
      r.access_token 3600 now, ?_, hstore, ?_⟩
  · have h := getOrFetchToken_miss_ok server now c st pfx form 3600 r hmiss hsrv
    rwa [hjs] at h
  · by_cases hlt : now2 < now + 3420 * 1000
    · rw [TokenCache.get_of_fresh _ pfx form now2 ⟨r.access_token, now + 3420 * 1000⟩
        hstore (by show now2 < now + 3420 * 1000; omega)]
      rw [if_pos hlt]
    · rw [TokenCache.get_of_expired _ pfx form now2 ⟨r.access_token, now + 3420 * 1000⟩
        hstore (by show now + 3420 * 1000 ≤ now2; omega)]
      rw [if_neg hlt]

/-- Witness for C8: `expires_in` absent, cached until millisecond 3420000; a
    `get` at 3419999 is still a hit. -/
theorem absent_expires_in_defaults_3600_witness :
    jsTruthyStr (TokenCache.get [] "blueprint" demoForm 0).1 = false ∧
    srvNoExpiry demoForm = .ok ⟨some "tok", none⟩ ∧
    (∃ c2,
      getOrFetchToken srvNoExpiry 0 [] ⟨0, 0⟩ "blueprint" demoForm 3600 =
        .ok (some "tok") c2 ⟨0, 1⟩ [demoForm] ∧
      mapGet c2 (TokenCache.generateKey "blueprint" demoForm) =
        some ⟨some "tok", 0 + 3420 * 1000⟩ ∧
      (TokenCache.get c2 "blueprint" demoForm 3419999).1 =
        (if (3419999 : Int) < 0 + 3420 * 1000 then some (some "tok") else none)) :=
  ⟨by decide, rfl,
    absent_expires_in_defaults_3600 srvNoExpiry 0 3419999 [] ⟨0, 0⟩ "blueprint"
      demoForm ⟨some "tok", none⟩ (by decide) rfl rfl⟩

/-- C9: `expires_in: 0` (the only falsy number an `Int` model can carry) is
    treated exactly like an absent `expires_in` by `expires_in || default`:
    the token is cached with the 3600-second default, not as an
    immediately-expired entry. -/
theorem zero_expires_in_defaults_3600 (server : Server) (now : Int)
    (c : Cache) (st : Stats) (pfx : String) (form : Form) (r : TokenResponse)
    (hmiss : jsTruthyStr (TokenCache.get c pfx form now).1 = false)
    (hsrv : server form = .ok r) (hzero : r.expires_in = some 0) :
    jsOrInt r.expires_in 3600 = 3600 ∧
    ∃ c2,
      getOrFetchToken server now c st pfx form 3600 =
        .ok r.access_token c2 ⟨st.hits, st.misses + 1⟩ [form] ∧
      mapGet c2 (TokenCache.generateKey pfx form) =
        some ⟨r.access_token, now + 3420 * 1000⟩ ∧
      now < now + 3420 * 1000 := by
  have hjs : jsOrInt r.expires_in 3600 = 3600 := by rw [hzero]; rfl
  have hstore : mapGet
      (TokenCache.set (TokenCache.get c pfx form now).2 pfx form
        r.access_token 3600 now)
      (TokenCache.generateKey pfx form) =
        some ⟨r.access_token, now + 3420 * 1000⟩ := by
    rw [TokenCache.set_eq_mapSet, mapGet_mapSet_self]
    norm_num
  refine ⟨hjs,
    TokenCache.set (TokenCache.get c pfx form now).2 pfx form
      r.access_token 3600 now, ?_, hstore, by omega⟩
  have h := getOrFetchToken_miss_ok server now c st pfx form 3600 r hmiss hsrv
  rwa [hjs] at h

/-- Witness for C9 with a concrete `expires_in: 0` response. -/
theorem zero_expires_in_defaults_3600_witness :
    jsTruthyStr (TokenCache.get [] "agentFic" demoForm 0).1 = false ∧
    srvZeroExpiry demoForm = .ok ⟨some "tok", some 0⟩ ∧
    (jsOrInt (TokenResponse.mk (some "tok") (some 0)).expires_in 3600 = 3600 ∧
      ∃ c2,
        getOrFetchToken srvZeroExpiry 0 [] ⟨0, 0⟩ "agentFic" demoForm 3600 =
          .ok (some "tok") c2 ⟨0, 1⟩ [demoForm] ∧
        mapGet c2 (TokenCache.generateKey "agentFic" demoForm) =
          some ⟨some "tok", 0 + 3420 * 1000⟩ ∧
        (0 : Int) < 0 + 3420 * 1000) :=
  ⟨by decide, rfl,
    zero_expires_in_defaults_3600 srvZeroExpiry 0 [] ⟨0, 0⟩ "agentFic" demoForm
      ⟨some "tok", some 0⟩ (by decide) rfl rfl⟩

/-! ### Distinct kinds give distinct cache keys -/

theorem generateKey_ne_of_head_ne (p1 p2 : String) (f1 f2 : Form) (a b : Char)
    (h1 : p1.data.head? = some a) (h2 : p2.data.head? = some b) (hne : a ≠ b) :
    TokenCache.generateKey p1 f1 ≠ TokenCache.generateKey p2 f2 := by
  intro heq
  apply hne
  have hd := congrArg String.data heq
  simp only [TokenCache.generateKey, String.data_append] at hd
  have hh := congrArg List.head? hd
  simp only [List.head?_append, h1, h2, Option.or_some] at hh
  simpa using hh

/-- C2 counterexample: with the agentFic step rejected (HTTP 401), the chain
    propagates exactly the HTTP layer's error `{status: 401, body:
    "Unauthorized"}` — the failing step's name `agentFic` appears nowhere in
    it (the error type has only a status and a body, and the body does not
    contain the step name), contradicting "the propagated error identifies
    the failing step". -/
theorem error_lacks_step_name_cex :
    (runChain srv401 0 demoCreds []).errorOf = some ⟨some 401, "Unauthorized"⟩ ∧
    ¬ ("agentFic".data <:+: "Unauthorized".data) := by
  refine ⟨by decide, by decide⟩

/-- C2 (amended): if the agentFic fetch fails, the chain aborts before the
    userToken step (only the blueprint and agentFic forms are ever POSTed),
    the blueprint cache entry written in step 1 stays intact — an immediate
    retry gets a blueprint cache hit — and the HTTP layer's error propagates
    unchanged (carrying its own status, but no step name); no fallback or
    partial token result is returned (the outcome is an error, not a
    record). -/
theorem agentFic_failure_aborts_chain (server : Server) (now : Int)
    (credentials : Credentials) (r1 : TokenResponse) (s1 : String) (e : HttpError)
    (h1 : server (blueprintForm credentials) = .ok r1)
    (ht1 : r1.access_token = some s1) (hs1 : s1 ≠ "")
    (hf1 : 180 < jsOrInt r1.expires_in 3600)
    (h2 : server (agentFicForm credentials (some s1)) = .error e) :
    ∃ cAfter,
      runChain server now credentials [] =
        .err e cAfter
          [blueprintForm credentials, agentFicForm credentials (some s1)]
          ⟨0, 2⟩ ∧
      (∀ bfic afic,
        userTokenForm credentials bfic afic ∉
          [blueprintForm credentials, agentFicForm credentials (some s1)]) ∧
      TokenCache.get cAfter "blueprint" (blueprintForm credentials) now =
        (some (some s1), cAfter) ∧
      getOrFetchToken server now cAfter ⟨0, 0⟩ "blueprint"
          (blueprintForm credentials) 3600 =
        .ok (some s1) cAfter ⟨1, 0⟩ [] := by
  have hget1 : TokenCache.get [] "blueprint" (blueprintForm credentials) now =
      (none, []) :=
    TokenCache.get_of_none [] "blueprint" (blueprintForm credentials) now rfl
  have hstep1 : getOrFetchToken server now [] ⟨0, 0⟩ "blueprint"
      (blueprintForm credentials) 3600 =
        .ok (some s1)
          (TokenCache.set [] "blueprint" (blueprintForm credentials) (some s1)
            (jsOrInt r1.expires_in 3600) now)
          ⟨0, 1⟩ [blueprintForm credentials] := by
    have h := getOrFetchToken_miss_ok server now [] ⟨0, 0⟩ "blueprint"
      (blueprintForm credentials) 3600 r1 (by rw [hget1]; rfl) h1
    rw [hget1, ht1] at h
    exact h
  have hkne : TokenCache.generateKey "agentFic" (agentFicForm credentials (some s1)) ≠
      TokenCache.generateKey "blueprint" (blueprintForm credentials) :=
    generateKey_ne_of_head_ne _ _ _ _ 'a' 'b' rfl rfl (by decide)
  have hmiss2 : mapGet
      (TokenCache.set [] "blueprint" (blueprintForm credentials) (some s1)
        (jsOrInt r1.expires_in 3600) now)
      (TokenCache.generateKey "agentFic" (agentFicForm credentials (some s1))) =
        none := by
    rw [TokenCache.set_eq_mapSet, mapGet_mapSet_ne _ _ _ _ hkne]
    rfl
  have hget2 := TokenCache.get_of_none _ "agentFic"
    (agentFicForm credentials (some s1)) now hmiss2
  have hstep2 : getOrFetchToken server now
      (TokenCache.set [] "blueprint" (blueprintForm credentials) (some s1)
        (jsOrInt r1.expires_in 3600) now)
      ⟨0, 1⟩ "agentFic" (agentFicForm credentials (some s1)) 3600 =
        .err e
          (TokenCache.set [] "blueprint" (blueprintForm credentials) (some s1)
            (jsOrInt r1.expires_in 3600) now)
          ⟨0, 2⟩ [agentFicForm credentials (some s1)] := by
    have h := getOrFetchToken_miss_err server now _ ⟨0, 1⟩ "agentFic"
      (agentFicForm credentials (some s1)) 3600 e (by rw [hget2]; rfl) h2
    rw [hget2] at h
    exact h
  have hself : mapGet
      (TokenCache.set [] "blueprint" (blueprintForm credentials) (some s1)
        (jsOrInt r1.expires_in 3600) now)
      (TokenCache.generateKey "blueprint" (blueprintForm credentials)) =
        some ⟨some s1, now + (jsOrInt r1.expires_in 3600 - 180) * 1000⟩ := by
    rw [TokenCache.set_eq_mapSet]
    exact mapGet_mapSet_self _ _ _
  have hgetA : TokenCache.get
      (TokenCache.set [] "blueprint" (blueprintForm credentials) (some s1)
        (jsOrInt r1.expires_in 3600) now)
      "blueprint" (blueprintForm credentials) now =
        (some (some s1),
          TokenCache.set [] "blueprint" (blueprintForm credentials) (some s1)
            (jsOrInt r1.expires_in 3600) now) := by
    rw [TokenCache.get_of_fresh _ "blueprint" (blueprintForm credentials) now _ hself
      (by show now < now + (jsOrInt r1.expires_in 3600 - 180) * 1000; omega)]
  refine ⟨TokenCache.set [] "blueprint" (blueprintForm credentials) (some s1)
      (jsOrInt r1.expires_in 3600) now, ?_, ?_, hgetA, ?_⟩
  · simp only [runChain, hstep1, hstep2, List.cons_append, List.nil_append]
  · intro bfic afic
    simp [blueprintForm, agentFicForm, userTokenForm]
  · have h := getOrFetchToken_hit server now _ ⟨0, 0⟩ "blueprint"
      (blueprintForm credentials) 3600 (by rw [hgetA]; simp [jsTruthyStr, hs1])
    rw [hgetA] at h
    exact h

/-- Witness for the amended C2 at the concrete 401 scenario. -/
theorem agentFic_failure_aborts_chain_witness :
    srv401 (blueprintForm demoCreds) = .ok ⟨some "tok1", some 3600⟩ ∧
    srv401 (agentFicForm demoCreds (some "tok1")) =
      .error ⟨some 401, "Unauthorized"⟩ ∧
    (∃ cAfter,
      runChain srv401 0 demoCreds [] =
        .err ⟨some 401, "Unauthorized"⟩ cAfter
          [blueprintForm demoCreds, agentFicForm demoCreds (some "tok1")]
          ⟨0, 2⟩ ∧
      TokenCache.get cAfter "blueprint" (blueprintForm demoCreds) 0 =
        (some (some "tok1"), cAfter) ∧
      getOrFetchToken srv401 0 cAfter ⟨0, 0⟩ "blueprint"
          (blueprintForm demoCreds) 3600 =
        .ok (some "tok1") cAfter ⟨1, 0⟩ []) :=
  ⟨rfl, rfl,
    (agentFic_failure_aborts_chain srv401 0 demoCreds ⟨some "tok1", some 3600⟩
        "tok1" ⟨some 401, "Unauthorized"⟩ rfl rfl (by decide) (by decide) rfl).imp
      (fun cAfter h => ⟨h.1, h.2.2.1, h.2.2.2⟩)⟩

theorem getOrFetchToken_cold (server : Server) (now : Int) (c : Cache) (st : Stats)
    (pfx : String) (form : Form) (d : Int) (r : TokenResponse)
    (hnone : mapGet c (TokenCache.generateKey pfx form) = none)
    (hsrv : server form = .ok r) :
    getOrFetchToken server now c st pfx form d =
      .ok r.access_token
        (TokenCache.set c pfx form r.access_token (jsOrInt r.expires_in d) now)
        ⟨st.hits, st.misses + 1⟩ [form] := by
  have hget := TokenCache.get_of_none c pfx form now hnone
  have h := getOrFetchToken_miss_ok server now c st pfx form d r
    (by rw [hget]; rfl) hsrv
  rw [hget] at h
  exact h

theorem getOrFetchToken_warm (server : Server) (now : Int) (c : Cache) (st : Stats)
    (pfx : String) (form : Form) (d : Int) (s : String) (x : Int)
    (hsome : mapGet c (TokenCache.generateKey pfx form) = some ⟨some s, x⟩)
    (hfr : now < x) (hs : s ≠ "") :
    getOrFetchToken server now c st pfx form d =
      .ok (some s) c ⟨st.hits + 1, st.misses⟩ [] := by
  have hget := TokenCache.get_of_fresh c pfx form now ⟨some s, x⟩ hsome hfr
  have h := getOrFetchToken_hit server now c st pfx form d
    (by rw [hget]; simp [jsTruthyStr, hs])
  rw [hget] at h
  exact h

/-- C7: running the full three-step chain twice with identical credentials,
    starting from a cold cache, with every response carrying a truthy token
    and every entry still fresh at the second run: the first run POSTs exactly
    the three step forms (3 fetches) and records 0 hits / 3 misses; the second
    run POSTs nothing (0 fetches) and records 3 hits / 0 misses, returning the
    identical blueprint, agent and user tokens; aggregate hits = misses = 3. -/
theorem chain_cold_then_warm (server : Server) (now : Int)
    (credentials : Credentials) (r1 r2 r3 : TokenResponse) (s1 s2 s3 : String)
    (h1 : server (blueprintForm credentials) = .ok r1)
    (h2 : server (agentFicForm credentials (some s1)) = .ok r2)
    (h3 : server (userTokenForm credentials (some s1) (some s2)) = .ok r3)
    (ht1 : r1.access_token = some s1) (hs1 : s1 ≠ "")
    (ht2 : r2.access_token = some s2) (hs2 : s2 ≠ "")
    (ht3 : r3.access_token = some s3) (hs3 : s3 ≠ "")
    (hf1 : 180 < jsOrInt r1.expires_in 3600)
    (hf2 : 180 < jsOrInt r2.expires_in 3600)
    (hf3 : 180 < jsOrInt r3.expires_in 3600) :
    ∃ cWarm res1 res2,
      runChain server now credentials [] =
        .ok res1 cWarm
          [blueprintForm credentials, agentFicForm credentials (some s1),
            userTokenForm credentials (some s1) (some s2)] ∧
      runChain server now credentials cWarm = .ok res2 cWarm [] ∧
      res1 = ⟨some s3, some s1, some s2, userScope credentials, 0, 3⟩ ∧
      res2 = ⟨some s3, some s1, some s2, userScope credentials, 3, 0⟩ ∧
      res2.access_token = res1.access_token ∧
      res2.blueprint_token = res1.blueprint_token ∧
      res2.agent_token = res1.agent_token ∧
      res1.cache_hits + res2.cache_hits = 3 ∧
      res1.cache_misses + res2.cache_misses = 3 := by
  have hAB : (TokenCache.generateKey "agentFic" (agentFicForm credentials (some s1))) ≠ (TokenCache.generateKey "blueprint" (blueprintForm credentials)) :=
    generateKey_ne_of_head_ne _ _ _ _ 'a' 'b' rfl rfl (by decide)
  have hUB : (TokenCache.generateKey "userToken" (userTokenForm credentials (some s1) (some s2))) ≠ (TokenCache.generateKey "blueprint" (blueprintForm credentials)) :=
    generateKey_ne_of_head_ne _ _ _ _ 'u' 'b' rfl rfl (by decide)
  have hUA : (TokenCache.generateKey "userToken" (userTokenForm credentials (some s1) (some s2))) ≠ (TokenCache.generateKey "agentFic" (agentFicForm credentials (some s1))) :=
    generateKey_ne_of_head_ne _ _ _ _ 'u' 'a' rfl rfl (by decide)
  have hBA : (TokenCache.generateKey "blueprint" (blueprintForm credentials)) ≠ (TokenCache.generateKey "agentFic" (agentFicForm credentials (some s1))) :=
    generateKey_ne_of_head_ne _ _ _ _ 'b' 'a' rfl rfl (by decide)
  have hBU : (TokenCache.generateKey "blueprint" (blueprintForm credentials)) ≠ (TokenCache.generateKey "userToken" (userTokenForm credentials (some s1) (some s2))) :=
    generateKey_ne_of_head_ne _ _ _ _ 'b' 'u' rfl rfl (by decide)
  have hAU : (TokenCache.generateKey "agentFic" (agentFicForm credentials (some s1))) ≠ (TokenCache.generateKey "userToken" (userTokenForm credentials (some s1) (some s2))) :=
    generateKey_ne_of_head_ne _ _ _ _ 'a' 'u' rfl rfl (by decide)
  -- cold-run cache lookups
  have hm1A : mapGet (TokenCache.set [] "blueprint" (blueprintForm credentials) (some s1) (jsOrInt r1.expires_in 3600) now) (TokenCache.generateKey "agentFic" (agentFicForm credentials (some s1))) = none := by
    rw [TokenCache.set_eq_mapSet, mapGet_mapSet_ne _ _ _ _ hAB]
    rfl
  have hm2U : mapGet (TokenCache.set (TokenCache.set [] "blueprint" (blueprintForm credentials) (some s1) (jsOrInt r1.expires_in 3600) now) "agentFic" (agentFicForm credentials (some s1)) (some s2) (jsOrInt r2.expires_in 3600) now) (TokenCache.generateKey "userToken" (userTokenForm credentials (some s1) (some s2))) = none := by
    rw [TokenCache.set_eq_mapSet, mapGet_mapSet_ne _ _ _ _ hUA,
      TokenCache.set_eq_mapSet, mapGet_mapSet_ne _ _ _ _ hUB]
    rfl
  -- warm-run cache lookups
  have hm3B : mapGet (TokenCache.set (TokenCache.set (TokenCache.set [] "blueprint" (blueprintForm credentials) (some s1) (jsOrInt r1.expires_in 3600) now) "agentFic" (agentFicForm credentials (some s1)) (some s2) (jsOrInt r2.expires_in 3600) now) "userToken" (userTokenForm credentials (some s1) (some s2)) (some s3) (jsOrInt r3.expires_in 3600) now) (TokenCache.generateKey "blueprint" (blueprintForm credentials)) =
      some ⟨some s1, now + ((jsOrInt r1.expires_in 3600) - 180) * 1000⟩ := by
    rw [TokenCache.set_eq_mapSet, mapGet_mapSet_ne _ _ _ _ hBU,
      TokenCache.set_eq_mapSet, mapGet_mapSet_ne _ _ _ _ hBA,
      TokenCache.set_eq_mapSet]
    exact mapGet_mapSet_self _ _ _
  have hm3A : mapGet (TokenCache.set (TokenCache.set (TokenCache.set [] "blueprint" (blueprintForm credentials) (some s1) (jsOrInt r1.expires_in 3600) now) "agentFic" (agentFicForm credentials (some s1)) (some s2) (jsOrInt r2.expires_in 3600) now) "userToken" (userTokenForm credentials (some s1) (some s2)) (some s3) (jsOrInt r3.expires_in 3600) now) (TokenCache.generateKey "agentFic" (agentFicForm credentials (some s1))) =
      some ⟨some s2, now + ((jsOrInt r2.expires_in 3600) - 180) * 1000⟩ := by
    rw [TokenCache.set_eq_mapSet, mapGet_mapSet_ne _ _ _ _ hAU,
      TokenCache.set_eq_mapSet]
    exact mapGet_mapSet_self _ _ _
  have hm3U : mapGet (TokenCache.set (TokenCache.set (TokenCache.set [] "blueprint" (blueprintForm credentials) (some s1) (jsOrInt r1.expires_in 3600) now) "agentFic" (agentFicForm credentials (some s1)) (some s2) (jsOrInt r2.expires_in 3600) now) "userToken" (userTokenForm credentials (some s1) (some s2)) (some s3) (jsOrInt r3.expires_in 3600) now) (TokenCache.generateKey "userToken" (userTokenForm credentials (some s1) (some s2))) =
      some ⟨some s3, now + ((jsOrInt r3.expires_in 3600) - 180) * 1000⟩ := by
    rw [TokenCache.set_eq_mapSet]
    exact mapGet_mapSet_self _ _ _
  -- the three cold-run steps
  have hstep1 : getOrFetchToken server now [] ⟨0, 0⟩ "blueprint"
      (blueprintForm credentials) 3600 =
        .ok (some s1) (TokenCache.set [] "blueprint" (blueprintForm credentials) (some s1) (jsOrInt r1.expires_in 3600) now) ⟨0, 1⟩ [blueprintForm credentials] := by
    have h := getOrFetchToken_cold server now [] ⟨0, 0⟩ "blueprint"
      (blueprintForm credentials) 3600 r1 rfl h1
    rw [ht1] at h
    exact h
  have hstep2 : getOrFetchToken server now (TokenCache.set [] "blueprint" (blueprintForm credentials) (some s1) (jsOrInt r1.expires_in 3600) now) ⟨0, 1⟩ "agentFic"
      (agentFicForm credentials (some s1)) 3600 =
        .ok (some s2) (TokenCache.set (TokenCache.set [] "blueprint" (blueprintForm credentials) (some s1) (jsOrInt r1.expires_in 3600) now) "agentFic" (agentFicForm credentials (some s1)) (some s2) (jsOrInt r2.expires_in 3600) now) ⟨0, 2⟩ [agentFicForm credentials (some s1)] := by
    have h := getOrFetchToken_cold server now (TokenCache.set [] "blueprint" (blueprintForm credentials) (some s1) (jsOrInt r1.expires_in 3600) now) ⟨0, 1⟩ "agentFic"
      (agentFicForm credentials (some s1)) 3600 r2 hm1A h2
    rw [ht2] at h
    exact h
  have hstep3 : getOrFetchToken server now (TokenCache.set (TokenCache.set [] "blueprint" (blueprintForm credentials) (some s1) (jsOrInt r1.expires_in 3600) now) "agentFic" (agentFicForm credentials (some s1)) (some s2) (jsOrInt r2.expires_in 3600) now) ⟨0, 2⟩ "userToken"
      (userTokenForm credentials (some s1) (some s2)) 3600 =
        .ok (some s3) (TokenCache.set (TokenCache.set (TokenCache.set [] "blueprint" (blueprintForm credentials) (some s1) (jsOrInt r1.expires_in 3600) now) "agentFic" (agentFicForm credentials (some s1)) (some s2) (jsOrInt r2.expires_in 3600) now) "userToken" (userTokenForm credentials (some s1) (some s2)) (some s3) (jsOrInt r3.expires_in 3600) now) ⟨0, 3⟩
          [userTokenForm credentials (some s1) (some s2)] := by
    have h := getOrFetchToken_cold server now (TokenCache.set (TokenCache.set [] "blueprint" (blueprintForm credentials) (some s1) (jsOrInt r1.expires_in 3600) now) "agentFic" (agentFicForm credentials (some s1)) (some s2) (jsOrInt r2.expires_in 3600) now) ⟨0, 2⟩ "userToken"
      (userTokenForm credentials (some s1) (some s2)) 3600 r3 hm2U h3
    rw [ht3] at h
    exact h
  -- the three warm-run steps
  have hwarm1 : getOrFetchToken server now (TokenCache.set (TokenCache.set (TokenCache.set [] "blueprint" (blueprintForm credentials) (some s1) (jsOrInt r1.expires_in 3600) now) "agentFic" (agentFicForm credentials (some s1)) (some s2) (jsOrInt r2.expires_in 3600) now) "userToken" (userTokenForm credentials (some s1) (some s2)) (some s3) (jsOrInt r3.expires_in 3600) now) ⟨0, 0⟩ "blueprint"
      (blueprintForm credentials) 3600 =
        .ok (some s1) (TokenCache.set (TokenCache.set (TokenCache.set [] "blueprint" (blueprintForm credentials) (some s1) (jsOrInt r1.expires_in 3600) now) "agentFic" (agentFicForm credentials (some s1)) (some s2) (jsOrInt r2.expires_in 3600) now) "userToken" (userTokenForm credentials (some s1) (some s2)) (some s3) (jsOrInt r3.expires_in 3600) now) ⟨1, 0⟩ [] :=
    getOrFetchToken_warm server now (TokenCache.set (TokenCache.set (TokenCache.set [] "blueprint" (blueprintForm credentials) (some s1) (jsOrInt r1.expires_in 3600) now) "agentFic" (agentFicForm credentials (some s1)) (some s2) (jsOrInt r2.expires_in 3600) now) "userToken" (userTokenForm credentials (some s1) (some s2)) (some s3) (jsOrInt r3.expires_in 3600) now) ⟨0, 0⟩ "blueprint" (blueprintForm credentials) 3600 s1 _
      hm3B (by omega) hs1
  have hwarm2 : getOrFetchToken server now (TokenCache.set (TokenCache.set (TokenCache.set [] "blueprint" (blueprintForm credentials) (some s1) (jsOrInt r1.expires_in 3600) now) "agentFic" (agentFicForm credentials (some s1)) (some s2) (jsOrInt r2.expires_in 3600) now) "userToken" (userTokenForm credentials (some s1) (some s2)) (some s3) (jsOrInt r3.expires_in 3600) now) ⟨1, 0⟩ "agentFic"
      (agentFicForm credentials (some s1)) 3600 =
        .ok (some s2) (TokenCache.set (TokenCache.set (TokenCache.set [] "blueprint" (blueprintForm credentials) (some s1) (jsOrInt r1.expires_in 3600) now) "agentFic" (agentFicForm credentials (some s1)) (some s2) (jsOrInt r2.expires_in 3600) now) "userToken" (userTokenForm credentials (some s1) (some s2)) (some s3) (jsOrInt r3.expires_in 3600) now) ⟨2, 0⟩ [] :=
    getOrFetchToken_warm server now (TokenCache.set (TokenCache.set (TokenCache.set [] "blueprint" (blueprintForm credentials) (some s1) (jsOrInt r1.expires_in 3600) now) "agentFic" (agentFicForm credentials (some s1)) (some s2) (jsOrInt r2.expires_in 3600) now) "userToken" (userTokenForm credentials (some s1) (some s2)) (some s3) (jsOrInt r3.expires_in 3600) now) ⟨1, 0⟩ "agentFic" (agentFicForm credentials (some s1)) 3600 s2 _
      hm3A (by omega) hs2
  have hwarm3 : getOrFetchToken server now (TokenCache.set (TokenCache.set (TokenCache.set [] "blueprint" (blueprintForm credentials) (some s1) (jsOrInt r1.expires_in 3600) now) "agentFic" (agentFicForm credentials (some s1)) (some s2) (jsOrInt r2.expires_in 3600) now) "userToken" (userTokenForm credentials (some s1) (some s2)) (some s3) (jsOrInt r3.expires_in 3600) now) ⟨2, 0⟩ "userToken"
      (userTokenForm credentials (some s1) (some s2)) 3600 =
        .ok (some s3) (TokenCache.set (TokenCache.set (TokenCache.set [] "blueprint" (blueprintForm credentials) (some s1) (jsOrInt r1.expires_in 3600) now) "agentFic" (agentFicForm credentials (some s1)) (some s2) (jsOrInt r2.expires_in 3600) now) "userToken" (userTokenForm credentials (some s1) (some s2)) (some s3) (jsOrInt r3.expires_in 3600) now) ⟨3, 0⟩ [] :=
    getOrFetchToken_warm server now (TokenCache.set (TokenCache.set (TokenCache.set [] "blueprint" (blueprintForm credentials) (some s1) (jsOrInt r1.expires_in 3600) now) "agentFic" (agentFicForm credentials (some s1)) (some s2) (jsOrInt r2.expires_in 3600) now) "userToken" (userTokenForm credentials (some s1) (some s2)) (some s3) (jsOrInt r3.expires_in 3600) now) ⟨2, 0⟩ "userToken" (userTokenForm credentials (some s1) (some s2)) 3600 s3 _
      hm3U (by omega) hs3
  refine ⟨(TokenCache.set (TokenCache.set (TokenCache.set [] "blueprint" (blueprintForm credentials) (some s1) (jsOrInt r1.expires_in 3600) now) "agentFic" (agentFicForm credentials (some s1)) (some s2) (jsOrInt r2.expires_in 3600) now) "userToken" (userTokenForm credentials (some s1) (some s2)) (some s3) (jsOrInt r3.expires_in 3600) now), ⟨some s3, some s1, some s2, userScope credentials, 0, 3⟩,
    ⟨some s3, some s1, some s2, userScope credentials, 3, 0⟩, ?_, ?_,
    rfl, rfl, rfl, rfl, rfl, rfl, rfl⟩
  · simp only [runChain, hstep1, hstep2, hstep3, List.cons_append,
      List.nil_append]
  · simp only [runChain, hwarm1, hwarm2, hwarm3, List.append_nil]

/-- Witness for C7: the spec §8 scenario (tok1/tok2/tok3, expiries 3600/3600/
    1800 seconds) run twice from a cold cache at a fixed clock. -/
theorem chain_cold_then_warm_witness :
    srvOk (blueprintForm demoCreds) = .ok ⟨some "tok1", some 3600⟩ ∧
    srvOk (agentFicForm demoCreds (some "tok1")) = .ok ⟨some "tok2", some 3600⟩ ∧
    srvOk (userTokenForm demoCreds (some "tok1") (some "tok2")) =
      .ok ⟨some "tok3", some 1800⟩ ∧
    (∃ cWarm res1 res2,
      runChain srvOk 0 demoCreds [] =
        .ok res1 cWarm
          [blueprintForm demoCreds, agentFicForm demoCreds (some "tok1"),
            userTokenForm demoCreds (some "tok1") (some "tok2")] ∧
      runChain srvOk 0 demoCreds cWarm = .ok res2 cWarm [] ∧
      res1 = ⟨some "tok3", some "tok1", some "tok2", userScope demoCreds, 0, 3⟩ ∧
      res2 = ⟨some "tok3", some "tok1", some "tok2", userScope demoCreds, 3, 0⟩ ∧
      res2.access_token = res1.access_token ∧
      res2.blueprint_token = res1.blueprint_token ∧
      res2.agent_token = res1.agent_token ∧
      res1.cache_hits + res2.cache_hits = 3 ∧
      res1.cache_misses + res2.cache_misses = 3) :=
  ⟨rfl, rfl, rfl,
    chain_cold_then_warm srvOk 0 demoCreds ⟨some "tok1", some 3600⟩
      ⟨some "tok2", some 3600⟩ ⟨some "tok3", some 1800⟩ "tok1" "tok2" "tok3"
      rfl rfl rfl rfl (by decide) rfl (by decide) rfl (by decide)
      (by decide) (by decide) (by decide)⟩
